import Mathlib

/-!
Shallow embedding of the X11 window shell of the laf OS library
(src/os/x11/window.cpp) and proofs about its event translation,
window-manager protocol client, cursor synthesizer and window registry.

Machine integers of the source are modelled as `Nat`/`Int`; the C++
`int` division of pointer coordinates by the scale factor is `Int.div`
(truncation toward zero).  X11 handles (::Window, ::Cursor) are `Nat`
with `0` playing the role of `None`.  Code of the repository that is
not under src/ (headers such as os/event.h, os/x11/keys.h and the gfx
library) is either modelled from the spec (marked in doc comments) or
abstracted into parameters.
-/

namespace LafX11

/-- gfx::Point (integer coordinates, as used by os/x11/window.cpp). -/
structure Point where
  x : Int
  y : Int
deriving DecidableEq, Repr

/-- gfx::Size. -/
structure Size where
  w : Int
  h : Int
deriving DecidableEq, Repr

/-- gfx::Border: decoration insets left/top/right/bottom.  The X11 code
stores the four `_NET_FRAME_EXTENTS` cardinals (unsigned) in it. -/
structure Border where
  left : Nat
  top : Nat
  right : Nat
  bottom : Nat
deriving DecidableEq, Repr

def Border.zero : Border := ⟨0, 0, 0, 0⟩

/-- gfx::Rect (position and size). -/
structure Rect where
  x : Int
  y : Int
  w : Int
  h : Int
deriving DecidableEq, Repr

/-- Modelled from the spec: gfx::Rect::enlarge(gfx::Border) lives in the
gfx library, which is not under src/.  The spec defines the frame
rectangle as the content rectangle enlarged by the decoration insets:
"content rectangle + insets = frame rectangle", one inset on each side. -/
def Rect.enlarge (rc : Rect) (br : Border) : Rect :=
  ⟨rc.x - br.left, rc.y - br.top,
   rc.w + br.left + br.right, rc.h + br.top + br.bottom⟩

/-- Modelled from the spec: Event::MouseButton from os/event.h is not
under src/; the canonical event carries a button identifier with a
distinguished null value. -/
inductive MouseButton where
  | NoneButton
  | LeftButton
  | RightButton
  | MiddleButton
  | X1Button
  | X2Button
deriving DecidableEq, Repr

/-- Modelled from the spec: the canonical event kinds of os/event.h
(not under src/), as listed in the spec's external-interface section. -/
inductive EventType where
  | NoneEvent
  | CloseWindow
  | ResizeWindow
  | PaintWindow
  | MouseEnter
  | MouseLeave
  | MouseMove
  | MouseDown
  | MouseUp
  | MouseWheel
  | MouseDoubleClick
  | KeyDown
  | KeyUp
deriving DecidableEq, Repr

/-- Modelled from the spec: os::Event (os/event.h is not under src/),
restricted to the payload fields that os/x11/window.cpp populates. -/
structure Event where
  type : EventType := EventType.NoneEvent
  modifiers : Nat := 0
  position : Point := ⟨0, 0⟩
  wheelDelta : Point := ⟨0, 0⟩
  button : MouseButton := MouseButton.NoneButton
  resizeSize : Size := ⟨0, 0⟩
  paintRect : Rect := ⟨0, 0, 0, 0⟩
deriving DecidableEq, Repr

/-- X11 core button codes Button4/Button5 (X.h). -/
def Button4 : Nat := 4

def Button5 : Nat := 5

/-- LAF_X11_DOUBLE_CLICK_TIMEOUT. -/
def LAF_X11_DOUBLE_CLICK_TIMEOUT : Nat := 250

/-- is_mouse_wheel_button from src/os/x11/window.cpp. -/
def is_mouse_wheel_button (button : Nat) : Bool :=
  button == Button4 || button == Button5 || button == 6 || button == 7

/-- get_mouse_wheel_delta from src/os/x11/window.cpp. -/
def get_mouse_wheel_delta (button : Nat) : Point :=
  if button = Button4 then ⟨0, -1⟩
  else if button = Button5 then ⟨0, 1⟩
  else if button = 6 then ⟨-1, 0⟩
  else if button = 7 then ⟨1, 0⟩
  else ⟨0, 0⟩

/-- Crossing-notification modes of XCrossingEvent (X.h). -/
inductive CrossingMode where
  | NotifyNormal
  | NotifyGrab
  | NotifyUngrab
deriving DecidableEq, Repr

/-- Functions and constants that os/x11/window.cpp imports from files
that are not under src/ (os/x11/keys.h, keys.cpp and os/event.h):
the translation of the X state bitmask to canonical modifiers, the
translation of X button codes to canonical mouse buttons, and the
canonical modifier bits.  They are abstract parameters of the
embedding. -/
structure X11Keys where
  get_modifiers_from_x : Nat → Nat
  get_mouse_button_from_x : Nat → MouseButton
  kKeyShiftModifier : Nat
  kKeyCtrlModifier : Nat
  kKeyAltModifier : Nat
  kKeyWinModifier : Nat

/-- X11 keysyms used by the key handler (keysymdef.h). -/
def XK_space : Nat := 0x0020

def XK_Shift_L : Nat := 0xFFE1

def XK_Shift_R : Nat := 0xFFE2

def XK_Control_L : Nat := 0xFFE3

def XK_Control_R : Nat := 0xFFE4

def XK_Meta_L : Nat := 0xFFE7

def XK_Meta_R : Nat := 0xFFE8

def XK_Alt_L : Nat := 0xFFE9

def XK_Alt_R : Nat := 0xFFEA

def XK_Super_L : Nat := 0xFFEB

def XK_Super_R : Nat := 0xFFEC

/-- The state of one WindowX11 together with the file-scope globals of
src/os/x11/window.cpp that the claims touch.  `cursor` is m_cursor and
`emptyCursor` is the global empty_xcursor, both X11 handles with 0 for
None; `freedCursors` and `emptyCursorCreations` are ghost accounting of
XFreeCursor and XCreatePixmapCursor calls, added for the resource-count
reasoning and never read by the translated code. -/
structure WindowState where
  scale : Int
  lastMousePos : Point
  lastClientSize : Size
  doubleClickButton : MouseButton
  doubleClickTick : Nat
  frameExtents : Border
  fullScreen : Bool
  borderless : Bool
  fromFrame : Bool
  cursor : Nat
  emptyCursor : Nat
  freedCursors : List Nat
  emptyCursorCreations : Nat
  spaceBarIsPressed : Bool
  lastXInputEventTime : Nat
deriving DecidableEq, Repr

/-- The state right after WindowX11::WindowX11.  The constructor's
initializer list sets m_cursor to None, m_lastMousePos to (-1,-1),
m_lastClientSize to (0,0) and m_doubleClickButton to NoneButton;
`fromFrame` is m_initializingFromFrame (true when the spec carried a
frame rectangle).  Modelled from the spec where the defaults live in
the missing header os/x11/window.h: the decoration insets start at the
zero-inset fallback and the cached fullscreen flag starts false. -/
def initWindowState (scale : Int) (borderless fromFrame : Bool) : WindowState :=
  { scale := scale
    lastMousePos := ⟨-1, -1⟩
    lastClientSize := ⟨0, 0⟩
    doubleClickButton := MouseButton.NoneButton
    doubleClickTick := 0
    frameExtents := Border.zero
    fullScreen := false
    borderless := borderless
    fromFrame := fromFrame
    cursor := 0
    emptyCursor := 0
    freedCursors := []
    emptyCursorCreations := 0
    spaceBarIsPressed := false
    lastXInputEventTime := 0 }

/-- Division of a device coordinate by m_scale, as written in the
source: C++ `int` division, i.e. truncation toward zero. -/
def logicalPos (st : WindowState) (x y : Int) : Point :=
  ⟨Int.tdiv x st.scale, Int.tdiv y st.scale⟩

/-- The ButtonPress/ButtonRelease arm of WindowX11::processX11Event.
`time` is event.xbutton.time, `tick` is the value of
base::current_tick() when the event is handled, `stateMask` is
event.xbutton.state. -/
def processButton (keys : X11Keys) (st : WindowState) (isPress : Bool)
    (time tick button : Nat) (x y : Int) (stateMask : Nat) :
    WindowState × List Event :=
  if time = st.lastXInputEventTime then (st, [])
  else
    let pos := logicalPos st x y
    let mods := keys.get_modifiers_from_x stateMask
    if is_mouse_wheel_button button then
      if isPress then
        (st, [{ type := EventType.MouseWheel
                wheelDelta := get_mouse_wheel_delta button
                modifiers := mods
                position := pos }])
      else
        (st, [])
    else
      let btn := keys.get_mouse_button_from_x button
      if isPress then
        if st.doubleClickButton = btn ∧
            tick - st.doubleClickTick < LAF_X11_DOUBLE_CLICK_TIMEOUT then
          ({ st with doubleClickButton := MouseButton.NoneButton },
           [{ type := EventType.MouseDoubleClick
              button := btn
              modifiers := mods
              position := pos }])
        else
          ({ st with doubleClickButton := btn, doubleClickTick := tick },
           [{ type := EventType.MouseDown
              button := btn
              modifiers := mods
              position := pos }])
      else
        (st, [{ type := EventType.MouseUp
                button := btn
                modifiers := mods
                position := pos }])

/-- The MotionNotify arm of WindowX11::processX11Event. -/
def processMotion (keys : X11Keys) (st : WindowState)
    (time : Nat) (x y : Int) (stateMask : Nat) :
    WindowState × List Event :=
  if time = st.lastXInputEventTime then (st, [])
  else
    let st := { st with doubleClickButton := MouseButton.NoneButton }
    let pos := logicalPos st x y
    if st.lastMousePos = pos then (st, [])
    else
      ({ st with lastMousePos := pos },
       [{ type := EventType.MouseMove
          modifiers := keys.get_modifiers_from_x stateMask
          position := pos }])

/-- The EnterNotify/LeaveNotify arm of WindowX11::processX11Event. -/
def processCrossing (keys : X11Keys) (st : WindowState) (isEnter : Bool)
    (mode : CrossingMode) (x y : Int) (stateMask : Nat) :
    WindowState × List Event :=
  let st := { st with spaceBarIsPressed := false }
  if mode = CrossingMode.NotifyNormal then
    (st, [{ type := if isEnter then EventType.MouseEnter else EventType.MouseLeave
            modifiers := keys.get_modifiers_from_x stateMask
            position := logicalPos st x y }])
  else
    (st, [])

/-- The KeyPress/KeyRelease arm of WindowX11::processX11Event.
`filtered` is the result of XFilterEvent (the input method consumed the
raw event); `nextQueued`, used only on KeyRelease, is the peeked next
queued native event as (is a KeyPress, its time, its keycode), or none
when the queue is empty.  The scancode and composed-unicode payloads,
computed via the missing os/x11/keys.h, are omitted from the model. -/
def processKey (keys : X11Keys) (st : WindowState) (isPress : Bool)
    (keysym keycode time stateMask : Nat) (filtered : Bool)
    (nextQueued : Option (Bool × Nat × Nat)) :
    WindowState × List Event :=
  if filtered then (st, [])
  else
    let st :=
      if keysym = XK_space then
        if isPress then { st with spaceBarIsPressed := true }
        else
          let st := { st with spaceBarIsPressed := false }
          match nextQueued with
          | some (isKP, t, kc) =>
            if isKP ∧ t = time ∧ kc = keycode then
              { st with spaceBarIsPressed := true }
            else st
          | none => st
      else st
    let mods := keys.get_modifiers_from_x stateMask
    let mods :=
      if keysym = XK_Shift_L ∨ keysym = XK_Shift_R then
        mods ||| keys.kKeyShiftModifier
      else if keysym = XK_Control_L ∨ keysym = XK_Control_R then
        mods ||| keys.kKeyCtrlModifier
      else if keysym = XK_Alt_L ∨ keysym = XK_Alt_R then
        mods ||| keys.kKeyAltModifier
      else if keysym = XK_Meta_L ∨ keysym = XK_Super_L ∨
              keysym = XK_Meta_R ∨ keysym = XK_Super_R then
        mods ||| keys.kKeyWinModifier
      else mods
    (st, [{ type := if isPress then EventType.KeyDown else EventType.KeyUp
            modifiers := mods }])

/-- The ConfigureNotify arm.  When m_initializingFromFrame is set the
handler only re-requests a server-side resize and clears the flag; a
genuine size change (positive and different from m_lastClientSize) is
reported through onResize. -/
def processConfigure (st : WindowState) (_x _y w h : Int) :
    WindowState × List Event :=
  if st.fromFrame then
    ({ st with fromFrame := false }, [])
  else if 0 < w ∧ 0 < h ∧ (⟨w, h⟩ : Size) ≠ st.lastClientSize then
    ({ st with lastClientSize := ⟨w, h⟩ },
     [{ type := EventType.ResizeWindow, resizeSize := ⟨w, h⟩ }])
  else
    (st, [])

/-- The Expose arm: repaint request forwarded through onPaint. -/
def processExpose (st : WindowState) (x y w h : Int) :
    WindowState × List Event :=
  (st, [{ type := EventType.PaintWindow, paintRect := ⟨x, y, w, h⟩ }])

/-- The ClientMessage arm: only WM_DELETE_WINDOW is recognized. -/
def processClientMessage (st : WindowState) (isDeleteWindow : Bool) :
    WindowState × List Event :=
  if isDeleteWindow then (st, [{ type := EventType.CloseWindow }])
  else (st, [])

/-- The PropertyNotify arm for the _NET_FRAME_EXTENTS atom.  `fetch` is
the result of the XGetWindowProperty round-trip: the four cardinals
(left, right, top, bottom) when the property read succeeds with four
items, none otherwise (in which case the insets are left unchanged). -/
def processFrameExtentsNotify (st : WindowState)
    (fetch : Option (Nat × Nat × Nat × Nat)) :
    WindowState × List Event :=
  match fetch with
  | some (l, r, t, b) => ({ st with frameExtents := ⟨l, t, r, b⟩ }, [])
  | none => (st, [])

/-- A native X11 event, carrying the environment answers the handler
obtains while processing it (current tick, XFilterEvent result, peeked
queue head, property fetch result). -/
inductive XEvent where
  | buttonPress (time tick button : Nat) (x y : Int) (stateMask : Nat)
  | buttonRelease (time tick button : Nat) (x y : Int) (stateMask : Nat)
  | motionNotify (time : Nat) (x y : Int) (stateMask : Nat)
  | enterNotify (mode : CrossingMode) (x y : Int) (stateMask : Nat)
  | leaveNotify (mode : CrossingMode) (x y : Int) (stateMask : Nat)
  | keyPress (keysym keycode time stateMask : Nat) (filtered : Bool)
  | keyRelease (keysym keycode time stateMask : Nat) (filtered : Bool)
      (nextQueued : Option (Bool × Nat × Nat))
  | configureNotify (x y w h : Int)
  | expose (x y w h : Int)
  | clientMessage (isDeleteWindow : Bool)
  | propertyNotifyFrameExtents (fetch : Option (Nat × Nat × Nat × Nat))
deriving DecidableEq, Repr

/-- WindowX11::processX11Event for core (non-XInput-extension) events:
the new window state and the canonical events queued. -/
def processX11Event (keys : X11Keys) (st : WindowState) (ev : XEvent) :
    WindowState × List Event :=
  match ev with
  | .buttonPress time tick button x y s => processButton keys st true time tick button x y s
  | .buttonRelease time tick button x y s => processButton keys st false time tick button x y s
  | .motionNotify time x y s => processMotion keys st time x y s
  | .enterNotify mode x y s => processCrossing keys st true mode x y s
  | .leaveNotify mode x y s => processCrossing keys st false mode x y s
  | .keyPress keysym keycode time s filtered =>
      processKey keys st true keysym keycode time s filtered none
  | .keyRelease keysym keycode time s filtered nextQueued =>
      processKey keys st false keysym keycode time s filtered nextQueued
  | .configureNotify x y w h => processConfigure st x y w h
  | .expose x y w h => processExpose st x y w h
  | .clientMessage isDelete => processClientMessage st isDelete
  | .propertyNotifyFrameExtents fetch => processFrameExtentsNotify st fetch

/-- Fold a native event trace through the translator, keeping the state. -/
def runState (keys : X11Keys) (st : WindowState) (evs : List XEvent) : WindowState :=
  evs.foldl (fun s e => (processX11Event keys s e).1) st

/-- WindowX11::contentRect queries the X server for the window geometry;
the geometry answer is a parameter of the embedding. -/
def contentRect (geometry : Rect) : Rect := geometry

/-- WindowX11::frame: the content rectangle enlarged by m_frameExtents. -/
def frame (geometry : Rect) (st : WindowState) : Rect :=
  Rect.enlarge (contentRect geometry) st.frameExtents

/-- WindowX11::isFullscreen: returns the cached m_fullScreen flag. -/
def isFullscreen (st : WindowState) : Bool := st.fullScreen

/-- WindowX11::setFullscreen.  `atomsAvailable` tells whether the
_NET_WM_STATE and _NET_WM_STATE_FULLSCREEN atoms could be interned
(the "No atoms?" early return).  Returns the new state and the number
of _NET_WM_STATE client messages sent to the root window. -/
def setFullscreen (atomsAvailable : Bool) (st : WindowState) (state : Bool) :
    WindowState × Nat :=
  if isFullscreen st = state then (st, 0)
  else if ¬atomsAvailable then (st, 0)
  else ({ st with fullScreen := state }, 1)

/-- The global g_activeWindows registry: native ::Window handle to the
owning WindowX11 object, both modelled as `Nat` identifiers. -/
def findWindow : List (Nat × Nat) → Nat → Option Nat
  | [], _ => none
  | (h, w) :: rest, handle => if h = handle then some w else findWindow rest handle

/-- WindowX11::addWindow.  The map write `g_activeWindows[h] = window`
is guarded by ASSERT(handle not yet registered); the ASSERT is modelled
with debug-build semantics, where a failed assertion aborts before the
write: the returned Bool is the assertion outcome and the registry is
returned unchanged when it is false. -/
def addWindow (reg : List (Nat × Nat)) (handle window : Nat) :
    Bool × List (Nat × Nat) :=
  match findWindow reg handle with
  | some _ => (false, reg)
  | none => (true, (handle, window) :: reg)

/-- WindowX11::removeWindow: look the handle up, assert it is present
and owned by this window, and erase the entry; a missing entry leaves
the registry untouched.  ASSERTs are modelled as in addWindow. -/
def removeWindow (reg : List (Nat × Nat)) (handle window : Nat) :
    Bool × List (Nat × Nat) :=
  match findWindow reg handle with
  | none => (false, reg)
  | some w =>
    if w = window then (true, reg.filter (fun p => p.1 ≠ handle))
    else (false, reg)

/-- WindowX11::setX11Cursor.  Frees the previously owned cursor handle
(unless it is None or the shared empty_xcursor), then installs the new
one; returns false when the new handle is None.  The freed handles are
recorded in the ghost `freedCursors` list. -/
def setX11Cursor (st : WindowState) (xcursor : Nat) : Bool × WindowState :=
  let st :=
    if st.cursor ≠ 0 then
      if st.cursor ≠ st.emptyCursor then
        { st with freedCursors := st.cursor :: st.freedCursors, cursor := 0 }
      else
        { st with cursor := 0 }
    else st
  if xcursor ≠ 0 then (true, { st with cursor := xcursor })
  else (false, st)

/-- The NativeCursor::Hidden branch of the symbolic overload of
WindowX11::setNativeMouseCursor: create the shared 1x1 empty cursor the
first time it is needed (`newHandle` is the handle XCreatePixmapCursor
returns then), reuse it afterwards, and install it via setX11Cursor.
Each creation is counted in the ghost `emptyCursorCreations`. -/
def setHiddenCursor (st : WindowState) (newHandle : Nat) : Bool × WindowState :=
  let st :=
    if st.emptyCursor = 0 then
      { st with emptyCursor := newHandle
                emptyCursorCreations := st.emptyCursorCreations + 1 }
    else st
  setX11Cursor st st.emptyCursor

/-- os::SurfaceFormatData (os/surface_format.h, not under src/): the
channel mask/shift description the X11 code reads through
Surface::getFormat.  Fields as used by src/os/x11/window.cpp. -/
structure SurfaceFormatData where
  bitsPerPixel : Nat
  redMask : Nat
  greenMask : Nat
  blueMask : Nat
  alphaMask : Nat
  redShift : Nat
  greenShift : Nat
  blueShift : Nat
  alphaShift : Nat
deriving DecidableEq, Repr

/-- The slice of the os::Surface collaborator contract that the bitmap
cursor overload consumes: dimensions, pixel format, and the 32-bit
sample at each (column, row) obtained through getData. -/
structure Surface where
  width : Nat
  height : Nat
  format : SurfaceFormatData
  pixel : Nat → Nat → Nat

/-- Re-packing of one 32-bit source sample into the XcursorPixel fixed
A-R-G-B channel order, exactly as written in the bitmap overload of
WindowX11::setNativeMouseCursor. -/
def repackCursorPixel (format : SurfaceFormatData) (c : Nat) : Nat :=
  (((c &&& format.alphaMask) >>> format.alphaShift) <<< 24) |||
  (((c &&& format.redMask) >>> format.redShift) <<< 16) |||
  (((c &&& format.greenMask) >>> format.greenShift) <<< 8) |||
  ((c &&& format.blueMask) >>> format.blueShift)

/-- The XcursorImage the bitmap overload fills in: dimensions, hot-spot
and the pixel grid. -/
structure XcursorImage where
  width : Nat
  height : Nat
  xhot : Int
  yhot : Int
  pixels : Nat → Nat → Nat

/-- The image-building loop of the bitmap overload: a (scale*width,
scale*height) image whose pixel at (x, y) replicates the source pixel
at (x/scale, y/scale) (the row comes from getData(0, y/scale) and the
column pointer advances once every `scale` steps), re-packed into the
native channel order; hot-spot scale*focus + scale/2 in each axis. -/
def buildCursorImage (surface : Surface) (focus : Point) (scale : Nat) :
    XcursorImage :=
  { width := scale * surface.width
    height := scale * surface.height
    xhot := (scale : Int) * focus.x + ((scale / 2 : Nat) : Int)
    yhot := (scale : Int) * focus.y + ((scale / 2 : Nat) : Int)
    pixels := fun x y =>
      repackCursorPixel surface.format (surface.pixel (x / scale) (y / scale)) }

/-- The bitmap overload of WindowX11::setNativeMouseCursor, up to the
setX11Cursor installation: none (the function returns false) when the
server lacks ARGB cursor support or the surface is not 32 bits per
pixel, otherwise the image handed to XcursorImageLoadCursor.
`supportsARGB` is the XcursorSupportsARGB answer. -/
def setNativeMouseCursorBitmap (supportsARGB : Bool) (surface : Surface)
    (focus : Point) (scale : Nat) : Option XcursorImage :=
  if ¬supportsARGB then none
  else if surface.format.bitsPerPixel ≠ 32 then none
  else some (buildCursorImage surface focus scale)

/-- A concrete instantiation of the abstract translations that live in
the missing os/x11/keys.cpp, used to evaluate the translator on
concrete inputs. -/
def testKeys : X11Keys :=
  { get_modifiers_from_x := fun m => m
    get_mouse_button_from_x := fun _ => MouseButton.LeftButton
    kKeyShiftModifier := 1
    kKeyCtrlModifier := 2
    kKeyAltModifier := 4
    kKeyWinModifier := 8 }

/-! ## Theorems -/

/-- C9: every core ButtonPress, ButtonRelease or MotionNotify whose
timestamp equals the time of the last event handled through the XInput
extension path is dropped entirely: no canonical event is emitted and
the translator state (double-click tracking, last pointer position)
stays untouched. -/
theorem xinput_duplicate_dropped (keys : X11Keys) (st : WindowState)
    (time tick button : Nat) (x y : Int) (mask : Nat)
    (h : time = st.lastXInputEventTime) :
    processX11Event keys st (XEvent.buttonPress time tick button x y mask) = (st, []) ∧
    processX11Event keys st (XEvent.buttonRelease time tick button x y mask) = (st, []) ∧
    processX11Event keys st (XEvent.motionNotify time x y mask) = (st, []) := by
  refine ⟨?_, ?_, ?_⟩ <;> simp [processX11Event, processButton, processMotion, h]

theorem xinput_duplicate_dropped_witness :
    processX11Event testKeys (initWindowState 2 false false)
      (XEvent.motionNotify 0 5 7 0) = (initWindowState 2 false false, []) :=
  (xinput_duplicate_dropped testKeys (initWindowState 2 false false)
    0 0 1 5 7 0 rfl).2.2

/-- C10: processing any enter or leave crossing notification leaves the
space-bar-held auxiliary flag false afterwards, and a canonical
MouseEnter/MouseLeave event is emitted exactly when the crossing mode
is NotifyNormal. -/
theorem crossing_clears_spacebar_and_needs_normal_mode (keys : X11Keys)
    (st : WindowState) (mode : CrossingMode) (x y : Int) (mask : Nat) :
    (processCrossing keys st true mode x y mask).1.spaceBarIsPressed = false ∧
    (processCrossing keys st false mode x y mask).1.spaceBarIsPressed = false ∧
    (processCrossing keys st true mode x y mask).2 =
      (if mode = CrossingMode.NotifyNormal then
        [{ type := EventType.MouseEnter
           modifiers := keys.get_modifiers_from_x mask
           position := logicalPos st x y }]
       else []) ∧
    (processCrossing keys st false mode x y mask).2 =
      (if mode = CrossingMode.NotifyNormal then
        [{ type := EventType.MouseLeave
           modifiers := keys.get_modifiers_from_x mask
           position := logicalPos st x y }]
       else []) := by
  by_cases hm : mode = CrossingMode.NotifyNormal <;>
    simp [processCrossing, hm, logicalPos]

/-- C5: setFullscreen(state) is a no-op when the requested state equals
the cached m_fullScreen flag; starting from a non-fullscreen window,
two consecutive setFullscreen(true) calls send exactly one
_NET_WM_STATE message in total and leave the cached flag true; and a
state change with the protocol atoms available sends one message and
updates the cached flag immediately. -/
theorem setFullscreen_cached_idempotent (atoms : Bool) (st : WindowState)
    (state : Bool) (hne : isFullscreen st ≠ state) :
    (∀ st2 : WindowState, ∀ b : Bool, isFullscreen st2 = b →
       setFullscreen atoms st2 b = (st2, 0)) ∧
    (st.fullScreen = false →
       (setFullscreen true st true).2 +
         (setFullscreen true (setFullscreen true st true).1 true).2 = 1 ∧
       (setFullscreen true (setFullscreen true st true).1 true).1.fullScreen = true) ∧
    setFullscreen true st state = ({ st with fullScreen := state }, 1) := by
  refine ⟨fun st2 b hb => by simp [setFullscreen, hb], fun h0 => ?_, ?_⟩
  · simp [setFullscreen, isFullscreen, h0]
  · simp [setFullscreen, hne]

theorem setFullscreen_cached_idempotent_witness :
    (setFullscreen true (initWindowState 1 false false) true).2 +
      (setFullscreen true (setFullscreen true (initWindowState 1 false false) true).1 true).2 = 1 ∧
    (setFullscreen true
      (setFullscreen true (initWindowState 1 false false) true).1 true).1.fullScreen = true :=
  (setFullscreen_cached_idempotent true (initWindowState 1 false false) true
    (by decide)).2.1 rfl

/-- findWindow returns none exactly when the handle is not among the
registered keys. -/
theorem findWindow_eq_none_iff (reg : List (Nat × Nat)) (handle : Nat) :
    findWindow reg handle = none ↔ handle ∉ reg.map Prod.fst := by
  induction reg with
  | nil => simp [findWindow]
  | cons p rest ih =>
    obtain ⟨a, b⟩ := p
    by_cases hah : a = handle
    · subst hah
      simp [findWindow]
    · simp only [findWindow, if_neg hah, List.map_cons, List.mem_cons]
      rw [ih]
      constructor
      · rintro hnm (h | h)
        · exact hah h.symm
        · exact hnm h
      · exact fun hnm h => hnm (Or.inr h)

/-- C4: the registry maps each native id to at most one window: a
duplicate insert fails its assertion and leaves the registry unchanged,
a fresh insert registers the window and keeps the keys duplicate-free,
and removing a non-registered id fails its assertion and leaves the
registry unchanged (removal always preserves key uniqueness). -/
theorem registry_rejects_duplicates (reg : List (Nat × Nat))
    (h1 w1 h2 w2 : Nat) (hnd : (reg.map Prod.fst).Nodup) :
    (findWindow reg h1 ≠ none → addWindow reg h1 w1 = (false, reg)) ∧
    (findWindow reg h1 = none →
       addWindow reg h1 w1 = (true, (h1, w1) :: reg) ∧
       (((h1, w1) :: reg).map Prod.fst).Nodup) ∧
    (findWindow reg h2 = none → removeWindow reg h2 w2 = (false, reg)) ∧
    ((removeWindow reg h2 w2).2.map Prod.fst).Nodup := by
  refine ⟨fun hf => ?_, fun hf => ?_, fun hf => ?_, ?_⟩
  · unfold addWindow
    cases hcase : findWindow reg h1 with
    | none => exact absurd hcase hf
    | some w => simp
  · unfold addWindow
    rw [hf]
    refine ⟨rfl, ?_⟩
    have hmem := (findWindow_eq_none_iff reg h1).1 hf
    rw [List.map_cons, List.nodup_cons]
    exact ⟨hmem, hnd⟩
  · unfold removeWindow
    rw [hf]
  · unfold removeWindow
    cases hcase : findWindow reg h2 with
    | none => exact hnd
    | some w =>
      by_cases hw : w = w2
      · simp only [hw, if_pos rfl]
        exact hnd.sublist ((List.filter_sublist reg).map Prod.fst)
      · simp only [if_neg hw]
        exact hnd

theorem registry_rejects_duplicates_witness :
    addWindow [(1, 10)] 2 20 = (true, [(2, 20), (1, 10)]) ∧
    (([(2, 20), (1, 10)] : List (Nat × Nat)).map Prod.fst).Nodup :=
  (registry_rejects_duplicates [(1, 10)] 2 20 3 30 (by decide)).2.1 (by decide)

/-- Enlarging by the zero border is the identity. -/
theorem Rect.enlarge_zero (rc : Rect) : Rect.enlarge rc Border.zero = rc := by
  cases rc
  simp [Rect.enlarge, Border.zero]

/-- A trace with no _NET_FRAME_EXTENTS property notification. -/
def noFrameExtentsNotify (evs : List XEvent) : Bool :=
  evs.all fun e =>
    match e with
    | XEvent.propertyNotifyFrameExtents _ => false
    | _ => true

/-- Every handler except the _NET_FRAME_EXTENTS property notification
leaves m_frameExtents unchanged. -/
theorem processX11Event_preserves_frameExtents (keys : X11Keys)
    (st : WindowState) (e : XEvent)
    (he : ∀ fetch, e ≠ XEvent.propertyNotifyFrameExtents fetch) :
    (processX11Event keys st e).1.frameExtents = st.frameExtents := by
  cases e with
  | propertyNotifyFrameExtents fetch => exact absurd rfl (he fetch)
  | _ =>
    simp only [processX11Event, processButton, processMotion, processCrossing,
      processKey, processConfigure, processExpose, processClientMessage]
    repeat' split
    all_goals rfl

/-- Running a trace without a frame-extents notification preserves
m_frameExtents. -/
theorem runState_preserves_frameExtents (keys : X11Keys) (evs : List XEvent) :
    ∀ st : WindowState, noFrameExtentsNotify evs = true →
      (runState keys st evs).frameExtents = st.frameExtents := by
  induction evs with
  | nil => intro st _; rfl
  | cons e rest ih =>
    intro st hall
    rw [noFrameExtentsNotify, List.all_cons, Bool.and_eq_true] at hall
    have hstep : runState keys st (e :: rest) =
        runState keys (processX11Event keys st e).1 rest := rfl
    rw [hstep, ih _ hall.2]
    apply processX11Event_preserves_frameExtents
    intro fetch hcontra
    rw [hcontra] at hall
    exact Bool.noConfusion hall.1

/-- C1: frame() always equals contentRect() enlarged by the currently
known decoration insets, and from window construction until a
_NET_FRAME_EXTENTS property notification is processed the insets are
the zero fallback, so frame() equals contentRect(). -/
theorem frame_eq_contentRect_enlarged (keys : X11Keys) (geom : Rect)
    (st : WindowState) (scale : Int) (borderless fromFrame : Bool)
    (evs : List XEvent) (hevs : noFrameExtentsNotify evs = true) :
    frame geom st = Rect.enlarge (contentRect geom) st.frameExtents ∧
    (initWindowState scale borderless fromFrame).frameExtents = Border.zero ∧
    (runState keys (initWindowState scale borderless fromFrame) evs).frameExtents
      = Border.zero ∧
    frame geom (runState keys (initWindowState scale borderless fromFrame) evs)
      = contentRect geom := by
  have hrun := runState_preserves_frameExtents keys evs
    (initWindowState scale borderless fromFrame) hevs
  refine ⟨rfl, rfl, hrun, ?_⟩
  rw [frame, hrun]
  exact Rect.enlarge_zero (contentRect geom)

theorem frame_eq_contentRect_enlarged_witness :
    frame ⟨1, 2, 30, 40⟩
      (runState testKeys (initWindowState 2 false false)
        [XEvent.motionNotify 1 9 9 0, XEvent.configureNotify 0 0 30 40])
      = contentRect ⟨1, 2, 30, 40⟩ :=
  (frame_eq_contentRect_enlarged testKeys ⟨1, 2, 30, 40⟩
    (initWindowState 2 false false) 2 false false
    [XEvent.motionNotify 1 9 9 0, XEvent.configureNotify 0 0 30 40]
    (by decide)).2.2.2

/-- C2: with fresh double-click tracking, a press of button b emits one
plain MouseDown and records (b, tick); a second press of b strictly
less than 250 ms later emits exactly one MouseDoubleClick (no plain
MouseDown) and resets the tracked button; a second press 250 ms or more
later emits a plain MouseDown again; and an intervening pointer-motion
event resets the tracking, so the following press of b emits a plain
MouseDown even inside the timeout window. -/
theorem double_click_detection (keys : X11Keys) (st0 : WindowState)
    (b : Nat) (t1 t2 time1 time2 timem : Nat)
    (x1 y1 x2 y2 xm ym : Int) (m1 m2 mm : Nat)
    (hw : is_mouse_wheel_button b = false)
    (hb : keys.get_mouse_button_from_x b ≠ MouseButton.NoneButton)
    (h0 : st0.doubleClickButton = MouseButton.NoneButton)
    (h1 : time1 ≠ st0.lastXInputEventTime)
    (h2 : time2 ≠ st0.lastXInputEventTime)
    (hm : timem ≠ st0.lastXInputEventTime) :
    (processButton keys st0 true time1 t1 b x1 y1 m1).2.map Event.type
      = [EventType.MouseDown] ∧
    (t2 - t1 < 250 →
      (processButton keys (processButton keys st0 true time1 t1 b x1 y1 m1).1
          true time2 t2 b x2 y2 m2).2.map Event.type
        = [EventType.MouseDoubleClick] ∧
      (processButton keys (processButton keys st0 true time1 t1 b x1 y1 m1).1
          true time2 t2 b x2 y2 m2).1.doubleClickButton
        = MouseButton.NoneButton) ∧
    (250 ≤ t2 - t1 →
      (processButton keys (processButton keys st0 true time1 t1 b x1 y1 m1).1
          true time2 t2 b x2 y2 m2).2.map Event.type
        = [EventType.MouseDown]) ∧
    (processButton keys
        (processMotion keys (processButton keys st0 true time1 t1 b x1 y1 m1).1
          timem xm ym mm).1
        true time2 t2 b x2 y2 m2).2.map Event.type
      = [EventType.MouseDown] := by
  have hne : st0.doubleClickButton ≠ keys.get_mouse_button_from_x b := by
    rw [h0]; exact fun hc => hb hc.symm
  have e1 : processButton keys st0 true time1 t1 b x1 y1 m1 =
      ({ st0 with doubleClickButton := keys.get_mouse_button_from_x b
                  doubleClickTick := t1 },
       [{ type := EventType.MouseDown
          button := keys.get_mouse_button_from_x b
          modifiers := keys.get_modifiers_from_x m1
          position := logicalPos st0 x1 y1 }]) := by
    simp [processButton, h1, hw, hne]
  refine ⟨by rw [e1]; rfl, fun hfast => ?_, fun hslow => ?_, ?_⟩
  · rw [e1]
    simp [processButton, h2, hw, LAF_X11_DOUBLE_CLICK_TIMEOUT, hfast, logicalPos]
  · rw [e1]
    have hnotlt : ¬(t2 - t1 < 250) := not_lt.2 hslow
    simp [processButton, h2, hw, LAF_X11_DOUBLE_CLICK_TIMEOUT, hnotlt, logicalPos]
  · rw [e1]
    have hfacts :
        (processMotion keys
          { st0 with doubleClickButton := keys.get_mouse_button_from_x b
                     doubleClickTick := t1 } timem xm ym mm).1.doubleClickButton
          = MouseButton.NoneButton ∧
        (processMotion keys
          { st0 with doubleClickButton := keys.get_mouse_button_from_x b
                     doubleClickTick := t1 } timem xm ym mm).1.lastXInputEventTime
          = st0.lastXInputEventTime := by
      simp only [processMotion]
      rw [if_neg hm]
      split <;> exact ⟨rfl, rfl⟩
    have hne2 : (processMotion keys
          { st0 with doubleClickButton := keys.get_mouse_button_from_x b
                     doubleClickTick := t1 } timem xm ym mm).1.doubleClickButton
        ≠ keys.get_mouse_button_from_x b := by
      rw [hfacts.1]; exact fun hc => hb hc.symm
    have ht2 : time2 ≠ (processMotion keys
          { st0 with doubleClickButton := keys.get_mouse_button_from_x b
                     doubleClickTick := t1 } timem xm ym mm).1.lastXInputEventTime := by
      rw [hfacts.2]; exact h2
    simp [processButton, ht2, hw, hne2]

theorem double_click_detection_witness :
    (processButton testKeys
      (processButton testKeys (initWindowState 1 false false)
        true 5 100 1 0 0 0).1
      true 6 200 1 0 0 0).2.map Event.type = [EventType.MouseDoubleClick] ∧
    (processButton testKeys
      (processButton testKeys (initWindowState 1 false false)
        true 5 100 1 0 0 0).1
      true 6 200 1 0 0 0).1.doubleClickButton = MouseButton.NoneButton :=
  (double_click_detection testKeys (initWindowState 1 false false)
    1 100 200 5 6 7 0 0 0 0 0 0 0 0 0
    (by decide) (by decide) (by decide) (by decide) (by decide)
    (by decide)).2.1 (by decide)

/-- C3 counterexample: at device position (-3, -3) with scale 2 the
translator emits logical position (-1, -1), because the C++ `int`
division truncates toward zero, while the claimed floor ⌊-3/2⌋ is -2. -/
theorem pointer_floor_counterexample :
    (processX11Event testKeys (initWindowState 2 false false)
      (XEvent.buttonPress 1 0 1 (-3) (-3) 0)).2.map Event.position
      = [⟨-1, -1⟩] ∧
    Int.fdiv (-3) 2 = -2 ∧
    (⟨-1, -1⟩ : Point) ≠ ⟨Int.fdiv (-3) 2, Int.fdiv (-3) 2⟩ := by
  decide

/-- C3 (amended): for every scale factor s ≥ 1, the logical position
placed into canonical button, motion and enter/leave events is the
device position divided by s with C++ truncation toward zero, which
equals (⌊x/s⌋, ⌊y/s⌋) whenever the device coordinates are nonnegative;
and a motion event is suppressed exactly when the logical position
equals the last reported one. -/
theorem pointer_position_scaled (keys : X11Keys) (st : WindowState)
    (time tick button : Nat) (x y : Int) (mask : Nat)
    (hs : 1 ≤ st.scale)
    (ht : time ≠ st.lastXInputEventTime) :
    (is_mouse_wheel_button button = false →
      (processButton keys st true time tick button x y mask).2.map Event.position
        = [logicalPos st x y] ∧
      (processButton keys st false time tick button x y mask).2.map Event.position
        = [logicalPos st x y]) ∧
    (is_mouse_wheel_button button = true →
      (processButton keys st true time tick button x y mask).2.map Event.position
        = [logicalPos st x y]) ∧
    ((processMotion keys st time x y mask).2.map Event.position =
      if st.lastMousePos = logicalPos st x y then [] else [logicalPos st x y]) ∧
    ((processCrossing keys st true CrossingMode.NotifyNormal x y mask).2.map
        Event.position = [logicalPos st x y]) ∧
    ((processCrossing keys st false CrossingMode.NotifyNormal x y mask).2.map
        Event.position = [logicalPos st x y]) ∧
    logicalPos st x y = ⟨Int.tdiv x st.scale, Int.tdiv y st.scale⟩ ∧
    (0 ≤ x → Int.tdiv x st.scale = Int.fdiv x st.scale) ∧
    (0 ≤ y → Int.tdiv y st.scale = Int.fdiv y st.scale) := by
  have hs0 : (0 : Int) ≤ st.scale := le_trans zero_le_one hs
  refine ⟨fun hwf => ⟨?_, ?_⟩, fun hwt => ?_, ?_, ?_, ?_, rfl,
    fun hx => (Int.fdiv_eq_tdiv hx hs0).symm,
    fun hy => (Int.fdiv_eq_tdiv hy hs0).symm⟩
  · by_cases hdc : st.doubleClickButton = keys.get_mouse_button_from_x button ∧
        tick - st.doubleClickTick < LAF_X11_DOUBLE_CLICK_TIMEOUT <;>
      simp [processButton, ht, hwf, hdc]
  · simp [processButton, ht, hwf]
  · simp [processButton, ht, hwt]
  · by_cases hpos : st.lastMousePos = logicalPos st x y <;>
      [skip; skip] <;> first
      | (simp [processMotion, ht, logicalPos, hpos];
         simp [logicalPos] at hpos; simp [hpos])
      | simp [processMotion, ht, logicalPos, hpos]
  · simp [processCrossing, logicalPos]
  · simp [processCrossing, logicalPos]

theorem pointer_position_scaled_witness :
    (processMotion testKeys (initWindowState 2 false false) 1 7 9 0).2.map
        Event.position =
      if (initWindowState 2 false false).lastMousePos
          = logicalPos (initWindowState 2 false false) 7 9 then []
      else [logicalPos (initWindowState 2 false false) 7 9] :=
  (pointer_position_scaled testKeys (initWindowState 2 false false)
    1 0 1 7 9 0 (by decide) (by decide)).2.2.1

/-- setX11Cursor never touches the shared empty-cursor handle. -/
theorem setX11Cursor_emptyCursor (st : WindowState) (xc : Nat) :
    (setX11Cursor st xc).2.emptyCursor = st.emptyCursor := by
  by_cases hc : st.cursor ≠ 0 <;> by_cases he : st.cursor ≠ st.emptyCursor <;>
    by_cases hx : xc ≠ 0 <;> simp [setX11Cursor, hc, he, hx]

/-- setX11Cursor never touches the creation counter. -/
theorem setX11Cursor_creations (st : WindowState) (xc : Nat) :
    (setX11Cursor st xc).2.emptyCursorCreations = st.emptyCursorCreations := by
  by_cases hc : st.cursor ≠ 0 <;> by_cases he : st.cursor ≠ st.emptyCursor <;>
    by_cases hx : xc ≠ 0 <;> simp [setX11Cursor, hc, he, hx]

/-- setX11Cursor frees at most the previously owned handle, and only
when that handle differs from the shared empty cursor. -/
theorem setX11Cursor_freedCursors (st : WindowState) (xc : Nat) :
    (setX11Cursor st xc).2.freedCursors = st.freedCursors ∨
    ((setX11Cursor st xc).2.freedCursors = st.cursor :: st.freedCursors ∧
     st.cursor ≠ st.emptyCursor) := by
  by_cases hc : st.cursor ≠ 0 <;> by_cases he : st.cursor ≠ st.emptyCursor <;>
    by_cases hx : xc ≠ 0 <;> simp [setX11Cursor, hc, he, hx]

/-- C6: each window owns at most one live cursor handle (the owned
handle after setX11Cursor is the installed one, or none); installing a
new cursor after a synthesized cursor `a` (not the hidden singleton)
frees `a`; the shared hidden cursor is never freed by an installation;
and the hidden cursor is created exactly once per process: a second
Hidden request reuses it without creating again. -/
theorem cursor_single_ownership (st : WindowState) (a bnew nh : Nat)
    (ha0 : a ≠ 0) (hae : a ≠ st.emptyCursor) :
    (∀ xc : Nat, (setX11Cursor st xc).2.cursor = if xc ≠ 0 then xc else 0) ∧
    a ∈ (setX11Cursor (setX11Cursor st a).2 bnew).2.freedCursors ∧
    (∀ xc : Nat, st.emptyCursor ∉ st.freedCursors →
       (setX11Cursor st xc).2.emptyCursor ∉ (setX11Cursor st xc).2.freedCursors) ∧
    (st.emptyCursor = 0 → nh ≠ 0 →
       (setHiddenCursor st nh).2.emptyCursorCreations
          = st.emptyCursorCreations + 1 ∧
       ∀ nh2 : Nat, (setHiddenCursor (setHiddenCursor st nh).2 nh2).2.emptyCursorCreations
          = st.emptyCursorCreations + 1) := by
  refine ⟨?_, ?_, ?_, fun h0 hnh => ?_⟩
  · intro xc
    by_cases hc : st.cursor ≠ 0 <;> by_cases he : st.cursor ≠ st.emptyCursor <;>
      by_cases hx : xc ≠ 0 <;> simp [setX11Cursor, hc, he, hx]
    all_goals simpa using hc
  · by_cases hc : st.cursor ≠ 0 <;> by_cases he : st.cursor ≠ st.emptyCursor <;>
      simp [setX11Cursor, hc, he, ha0, hae] <;> split <;> simp
  · intro xc hnin
    rcases setX11Cursor_freedCursors st xc with h | ⟨h, hne⟩ <;>
      rw [setX11Cursor_emptyCursor, h]
    · exact hnin
    · rw [List.mem_cons]
      rintro (hEq | hEq)
      · exact hne hEq.symm
      · exact hnin hEq
  · have hfirst : (setHiddenCursor st nh).2.emptyCursorCreations
        = st.emptyCursorCreations + 1 := by
      rw [setHiddenCursor, if_pos h0, setX11Cursor_creations]
    have hemp : (setHiddenCursor st nh).2.emptyCursor = nh := by
      rw [setHiddenCursor, if_pos h0, setX11Cursor_emptyCursor]
    refine ⟨hfirst, fun nh2 => ?_⟩
    have hno : ¬((setHiddenCursor st nh).2.emptyCursor = 0) := by
      rw [hemp]; exact hnh
    rw [setHiddenCursor, if_neg hno, setX11Cursor_creations, hfirst]

theorem cursor_single_ownership_witness :
    (7 : Nat) ∈ (setX11Cursor (setX11Cursor (initWindowState 1 false false) 7).2 9).2.freedCursors :=
  (cursor_single_ownership (initWindowState 1 false false) 7 9 3
    (by decide) (by decide)).2.1

/-- A 2x2 all-red 32bpp source bitmap in R-G-B-A byte order: the red
and alpha channels at full intensity (0xFF0000FF per pixel). -/
def redSurface : Surface :=
  { width := 2
    height := 2
    format := { bitsPerPixel := 32
                redMask := 0xFF000000
                greenMask := 0xFF0000
                blueMask := 0xFF00
                alphaMask := 0xFF
                redShift := 24
                greenShift := 16
                blueShift := 8
                alphaShift := 0 }
    pixel := fun _ _ => 0xFF0000FF }

/-- C7: the bitmap cursor overload rejects (returns no cursor image,
hence false) when ARGB cursors are unsupported or the source is not
32bpp; otherwise it builds the (scale*w, scale*h) nearest-neighbor
replication with channels re-packed into the native A-R-G-B order and
hot-spot scale*focus + scale/2; on the 2x2 all-red source with scale 2
every pixel of the 4x4 image is the native-order red value 0xFFFF0000
and the hot-spot is 2*focus+1 in each axis. -/
theorem bitmap_cursor_build (supports : Bool) (surface : Surface)
    (focus : Point) (scale : Nat) :
    setNativeMouseCursorBitmap false surface focus scale = none ∧
    (surface.format.bitsPerPixel ≠ 32 →
      setNativeMouseCursorBitmap supports surface focus scale = none) ∧
    (supports = true → surface.format.bitsPerPixel = 32 →
      setNativeMouseCursorBitmap supports surface focus scale
        = some (buildCursorImage surface focus scale)) ∧
    ((buildCursorImage surface focus scale).width = scale * surface.width ∧
     (buildCursorImage surface focus scale).height = scale * surface.height ∧
     (buildCursorImage surface focus scale).xhot
        = (scale : Int) * focus.x + ((scale / 2 : Nat) : Int) ∧
     (buildCursorImage surface focus scale).yhot
        = (scale : Int) * focus.y + ((scale / 2 : Nat) : Int) ∧
     ∀ px py : Nat, (buildCursorImage surface focus scale).pixels px py
        = repackCursorPixel surface.format
            (surface.pixel (px / scale) (py / scale))) ∧
    (∀ fx fy : Int,
      setNativeMouseCursorBitmap true redSurface ⟨fx, fy⟩ 2
        = some (buildCursorImage redSurface ⟨fx, fy⟩ 2) ∧
      (buildCursorImage redSurface ⟨fx, fy⟩ 2).width = 4 ∧
      (buildCursorImage redSurface ⟨fx, fy⟩ 2).height = 4 ∧
      (buildCursorImage redSurface ⟨fx, fy⟩ 2).xhot = 2 * fx + 1 ∧
      (buildCursorImage redSurface ⟨fx, fy⟩ 2).yhot = 2 * fy + 1 ∧
      ∀ px : Nat, px < 4 → ∀ py : Nat, py < 4 →
        (buildCursorImage redSurface ⟨fx, fy⟩ 2).pixels px py = 0xFFFF0000) := by
  refine ⟨by simp [setNativeMouseCursorBitmap], fun h32 => ?_,
    fun hsup h32 => ?_, ⟨rfl, rfl, rfl, rfl, fun px py => rfl⟩,
    fun fx fy => ⟨?_, rfl, rfl, ?_, ?_, fun px _ py _ => by
      simp only [buildCursorImage, redSurface, repackCursorPixel]
      decide⟩⟩
  · cases supports <;> simp [setNativeMouseCursorBitmap, h32]
  · simp [setNativeMouseCursorBitmap, hsup, h32]
  · simp [setNativeMouseCursorBitmap, redSurface]
  · show (2 : Int) * fx + ((2 / 2 : Nat) : Int) = 2 * fx + 1
    norm_num
  · show (2 : Int) * fy + ((2 / 2 : Nat) : Int) = 2 * fy + 1
    norm_num

theorem bitmap_cursor_build_witness :
    setNativeMouseCursorBitmap true
      { width := 2, height := 2
        format := { bitsPerPixel := 16
                    redMask := 0, greenMask := 0, blueMask := 0, alphaMask := 0
                    redShift := 0, greenShift := 0, blueShift := 0, alphaShift := 0 }
        pixel := fun _ _ => 0 } ⟨0, 0⟩ 2 = none :=
  (bitmap_cursor_build true
    { width := 2, height := 2
      format := { bitsPerPixel := 16
                  redMask := 0, greenMask := 0, blueMask := 0, alphaMask := 0
                  redShift := 0, greenShift := 0, blueShift := 0, alphaShift := 0 }
      pixel := fun _ _ => 0 } ⟨0, 0⟩ 2).2.1 (by decide)

/-- C8: the wheel-button set is exactly the native codes 4, 5, 6, 7
with vertical/horizontal deltas of plus-minus one; a wheel press is
translated to a single MouseWheel event carrying that delta, a wheel
release to no canonical event at all; codes outside the set translate
to ordinary MouseDown/MouseUp events. -/
theorem wheel_button_translation (keys : X11Keys) (st : WindowState)
    (time tick : Nat) (x y : Int) (mask : Nat)
    (ht : time ≠ st.lastXInputEventTime) :
    (∀ b : Nat, is_mouse_wheel_button b = true ↔ (b = 4 ∨ b = 5 ∨ b = 6 ∨ b = 7)) ∧
    (get_mouse_wheel_delta 4 = ⟨0, -1⟩ ∧ get_mouse_wheel_delta 5 = ⟨0, 1⟩ ∧
     get_mouse_wheel_delta 6 = ⟨-1, 0⟩ ∧ get_mouse_wheel_delta 7 = ⟨1, 0⟩) ∧
    (∀ b : Nat, is_mouse_wheel_button b = true →
      (processButton keys st true time tick b x y mask).2 =
        [{ type := EventType.MouseWheel
           wheelDelta := get_mouse_wheel_delta b
           modifiers := keys.get_modifiers_from_x mask
           position := logicalPos st x y }] ∧
      processButton keys st false time tick b x y mask = (st, [])) ∧
    (∀ b : Nat, is_mouse_wheel_button b = false →
      st.doubleClickButton = MouseButton.NoneButton →
      keys.get_mouse_button_from_x b ≠ MouseButton.NoneButton →
      (processButton keys st true time tick b x y mask).2 =
        [{ type := EventType.MouseDown
           button := keys.get_mouse_button_from_x b
           modifiers := keys.get_modifiers_from_x mask
           position := logicalPos st x y }] ∧
      (processButton keys st false time tick b x y mask).2 =
        [{ type := EventType.MouseUp
           button := keys.get_mouse_button_from_x b
           modifiers := keys.get_modifiers_from_x mask
           position := logicalPos st x y }]) := by
  refine ⟨fun b => ?_, by decide, fun b hb => ?_, fun b hwf h0 hbn => ?_⟩
  · simp only [is_mouse_wheel_button, Button4, Button5, Bool.or_eq_true,
      beq_iff_eq]
    tauto
  · constructor <;> simp [processButton, ht, hb]
  · have hne : st.doubleClickButton ≠ keys.get_mouse_button_from_x b := by
      rw [h0]; exact fun hc => hbn hc.symm
    constructor <;> simp [processButton, ht, hwf, hne]

theorem wheel_button_translation_witness :
    (processButton testKeys (initWindowState 1 false false) true 1 0 5 0 0 0).2 =
      [{ type := EventType.MouseWheel
         wheelDelta := get_mouse_wheel_delta 5
         modifiers := testKeys.get_modifiers_from_x 0
         position := logicalPos (initWindowState 1 false false) 0 0 }] ∧
    processButton testKeys (initWindowState 1 false false) false 1 0 5 0 0 0 =
      (initWindowState 1 false false, []) :=
  (wheel_button_translation testKeys (initWindowState 1 false false)
    1 0 0 0 0 (by decide)).2.2.1 5 (by decide)

end LafX11
